import Mathlib

/-!
Verification of the go-apns APNS binary-protocol library.

The development shallowly embeds the wire codecs of the repository:
streams are lists of byte values (`Nat`, each intended `< 256`), an
encoder is a function producing the byte list the Go code writes, and a
decoder is a function from a stream to an optional parsed record plus the
remaining stream.  Go's `binary.Read` (which uses `io.ReadFull`) is
modelled by `read8` / `read16` / `read32`, a bare `r.Read` into a
`make([]byte, k)` buffer is modelled by `readChunk` (it accepts a short
final read, zero-padding the buffer, and only fails when no byte at all
is available), and `io.ReadFull`-style reads are `readFull`.  Machine
integers are `Nat` (or `Int` for the Go `int32`/`int8` fields of the
framed format) with explicit `% 2^w` reductions where the Go code
truncates.
-/

/-- Big-endian encoding of a `uint16` value (Go `binary.Write` of a
two-byte integer).  Values `≥ 2^16` are truncated exactly as a Go
integer-to-`uint16`/`int16` conversion would truncate them. -/
def be16 (n : Nat) : List Nat :=
  [n / 256 % 256, n % 256]

/-- Big-endian encoding of a `uint32` value (Go `binary.Write` of a
four-byte integer), truncating values `≥ 2^32`. -/
def be32 (n : Nat) : List Nat :=
  [n / 16777216 % 256, n / 65536 % 256, n / 256 % 256, n % 256]

/-- Big-endian two's-complement encoding of a Go `int32` value. -/
def be32I (x : Int) : List Nat :=
  be32 ((x % 4294967296).toNat)

/-- Single-byte two's-complement encoding of a Go `int8`/`uint8` value. -/
def intByte (x : Int) : List Nat :=
  [(x % 256).toNat]

/-- Reading one byte (`binary.Read` of a one-byte integer): fails only at
end of stream. -/
def read8 (s : List Nat) : Option Nat × List Nat :=
  match s with
  | [] => (none, [])
  | b :: rest => (some b, rest)

/-- Reading a big-endian `uint16` (`binary.Read`, i.e. `io.ReadFull` of
two bytes): fails unless two bytes are available. -/
def read16 (s : List Nat) : Option Nat × List Nat :=
  match s with
  | b1 :: b2 :: rest => (some (256 * b1 + b2), rest)
  | _ => (none, [])

/-- Reading a big-endian `uint32` (`binary.Read`, i.e. `io.ReadFull` of
four bytes): fails unless four bytes are available. -/
def read32 (s : List Nat) : Option Nat × List Nat :=
  match s with
  | b1 :: b2 :: b3 :: b4 :: rest =>
      (some (((b1 * 256 + b2) * 256 + b3) * 256 + b4), rest)
  | _ => (none, [])

/-- A single Go `r.Read(make([]byte, k))` call, as performed by the
notification decoders in the repository.  A `Read` on a non-empty stream
returns up to `k` bytes without error, leaving the rest of the buffer at
its zero value; it reports an error (`io.EOF`) only when `k > 0` and the
stream is already exhausted.  A zero-length buffer always succeeds. -/
def readChunk (k : Nat) (s : List Nat) : Option (List Nat) × List Nat :=
  if k = 0 then (some [], s)
  else if s.isEmpty then (none, s)
  else (some (s.take k ++ List.replicate (k - s.length) 0), s.drop k)

/-- An `io.ReadFull`-style read of exactly `k` bytes, failing whenever
fewer than `k` bytes are available. -/
def readFull (k : Nat) (s : List Nat) : Option (List Nat) × List Nat :=
  if k ≤ s.length then (some (s.take k), s.drop k) else (none, [])

/-- A writer with observable output and injectable failure, standing in
for the `io.Writer` handed to the Go `WriteTo`/`Write` methods.  When
`failAt = some k`, every write attempted once `k` or more bytes have been
written fails (modelling a broken or closed stream); a failed write
appends nothing and reports an error, exactly as `binary.Write` reports
the underlying writer's error. -/
structure GoWriter where
  written : List Nat
  failAt : Option Nat
deriving DecidableEq

/-- One `binary.Write` call against a `GoWriter`: returns the new writer
state and `some ()` when the underlying stream reported an error. -/
def GoWriter.write (w : GoWriter) (bs : List Nat) : GoWriter × Option Unit :=
  match w.failAt with
  | some k =>
      if k ≤ w.written.length then (w, some ())
      else ({ w with written := w.written ++ bs }, none)
  | none => ({ w with written := w.written ++ bs }, none)

/-- `SimpleNotification` (src/simple_notification.go): the legacy tag-0
layout, with explicit 16-bit length fields. -/
structure SimpleNotification where
  Command : Nat
  TokenLength : Nat
  DeviceToken : List Nat
  PayloadLength : Nat
  Payload : List Nat
deriving DecidableEq

/-- `EnhancedNotification` (src/enhanced_notification.go): the tag-1
layout adding a 32-bit identifier and expiry. -/
structure EnhancedNotification where
  Command : Nat
  Identifier : Nat
  Expiry : Nat
  TokenLength : Nat
  DeviceToken : List Nat
  PayloadLength : Nat
  Payload : List Nat
deriving DecidableEq

/-- The framed (tag-2) `Notification` of src/format/notification_enhanced.go.
The Go struct stores the token as a hex string and the payload as a JSON
map; `WriteTo` first converts them (`hex.DecodeString`, `json.Marshal`)
to byte blobs, and this embedding carries those byte blobs directly.
`Identifier`, `Expiry` and `Priority` are the Go `int32`/`int32`/`int8`
fields. -/
structure FramedNotification where
  Command : Nat
  Token : List Nat
  Identifier : Int
  Expiry : Int
  Priority : Int
  Payload : List Nat
deriving DecidableEq

/-- `ErrorResponse` (src/unnamed/part_004): tag-8 error packet. -/
structure ErrorResponse where
  Command : Nat
  Status : Nat
  Identifier : Nat
deriving DecidableEq

/-- Status constant from the source: `InvalidTokenStatus uint8 = 8`. -/
def InvalidTokenStatus : Nat := 8

/-- Constant from the source: the legacy 256-byte payload ceiling. -/
def MaxSimplePayloadSize : Nat := 256

/-- `SimpleNotification.WriteTo` (src/simple_notification.go lines 38-48):
the bytes written are the command byte, the big-endian 16-bit length
fields, and the raw token and payload blobs, in order. -/
def SimpleNotification.WriteTo (sn : SimpleNotification) : List Nat :=
  [sn.Command % 256] ++ be16 sn.TokenLength ++ sn.DeviceToken
    ++ be16 sn.PayloadLength ++ sn.Payload

/-- `SimpleNotification.WriteTo` run against an explicit writer
(src/simple_notification.go lines 38-48): each `binary.Write` result is
bound and discarded, and the method returns `nil` unconditionally.  The
second component is the error value the Go method returns. -/
def SimpleNotification.WriteToW (sn : SimpleNotification) (w : GoWriter) :
    GoWriter × Option Unit :=
  let r1 := w.write [sn.Command % 256]
  let r2 := r1.1.write (be16 sn.TokenLength)
  let r3 := r2.1.write sn.DeviceToken
  let r4 := r3.1.write (be16 sn.PayloadLength)
  let r5 := r4.1.write sn.Payload
  (r5.1, none)

/-- `EnhancedNotification.Write` (src/enhanced_notification.go lines
56-68): command byte, 32-bit identifier and expiry, then the two
length-prefixed blobs. -/
def EnhancedNotification.Write (en : EnhancedNotification) : List Nat :=
  [en.Command % 256] ++ be32 en.Identifier ++ be32 en.Expiry
    ++ be16 en.TokenLength ++ en.DeviceToken
    ++ be16 en.PayloadLength ++ en.Payload

/-- `EnhancedNotification.Write` against an explicit writer
(src/enhanced_notification.go lines 56-68): all seven `binary.Write`
errors are discarded and the method returns `nil`. -/
def EnhancedNotification.WriteW (en : EnhancedNotification) (w : GoWriter) :
    GoWriter × Option Unit :=
  let r1 := w.write [en.Command % 256]
  let r2 := r1.1.write (be32 en.Identifier)
  let r3 := r2.1.write (be32 en.Expiry)
  let r4 := r3.1.write (be16 en.TokenLength)
  let r5 := r4.1.write en.DeviceToken
  let r6 := r5.1.write (be16 en.PayloadLength)
  let r7 := r6.1.write en.Payload
  (r7.1, none)

/-- `Notification.WriteTo` for the framed format
(src/format/notification_enhanced.go lines 225-338): command byte 2, a
32-bit frame length equal to the sum of all five item sizes, then the
five items token, payload, identifier, expiry, priority, each as
`itemTag(1) | itemLen(2,BE) | itemData`. -/
def FramedNotification.WriteTo (n : FramedNotification) : List Nat :=
  let tokenLen := n.Token.length
  let payloadLen := n.Payload.length
  let identifierLen := 4
  let expiryLen := 4
  let priorityLen := 1
  let frameLen :=
    1 + 2 + tokenLen
      + (1 + 2 + payloadLen)
      + (1 + 2 + identifierLen)
      + (1 + 2 + expiryLen)
      + (1 + 2 + priorityLen)
  [2] ++ be32 frameLen
    ++ [1] ++ be16 tokenLen ++ n.Token
    ++ [2] ++ be16 payloadLen ++ n.Payload
    ++ [3] ++ be16 identifierLen ++ be32I n.Identifier
    ++ [4] ++ be16 expiryLen ++ be32I n.Expiry
    ++ [5] ++ be16 priorityLen ++ intByte n.Priority

/-- `SimpleNotification.ReadFrom` (src/simple_notification.go lines
50-78): reads the 16-bit token length, the token bytes via a bare
`r.Read`, the 16-bit payload length, and the payload bytes via a bare
`r.Read`.  The dispatcher allocates the receiver with `new`, so the
`Command` field of the decoded value stays 0. -/
def SimpleNotification.ReadFrom (s : List Nat) :
    Option SimpleNotification × List Nat :=
  match read16 s with
  | (none, r) => (none, r)
  | (some tokenLen, s1) =>
    match readChunk tokenLen s1 with
    | (none, r) => (none, r)
    | (some token, s2) =>
      match read16 s2 with
      | (none, r) => (none, r)
      | (some payloadLen, s3) =>
        match readChunk payloadLen s3 with
        | (none, r) => (none, r)
        | (some payload, s4) =>
          (some { Command := 0, TokenLength := tokenLen,
                  DeviceToken := token, PayloadLength := payloadLen,
                  Payload := payload }, s4)

/-- Modelled from the spec: the root-package `EnhancedNotification.ReadFrom`
is called by `ReadCommand` in src/unnamed/part_002 but its definition is
not under src/ (only the `format` package variant is).  Following the
spec's enhanced layout `identifier(4,BE) | expiry(4,BE) | tokenLen(2,BE) |
token | payloadLen(2,BE) | payload` and its decode contract (consume
exactly the variant's bytes, fail on any shortfall), this parser uses
full reads and populates the Enhanced (tag 1) variant. -/
def EnhancedNotification.ReadFrom (s : List Nat) :
    Option EnhancedNotification × List Nat :=
  match read32 s with
  | (none, r) => (none, r)
  | (some ident, s1) =>
    match read32 s1 with
    | (none, r) => (none, r)
    | (some expiry, s2) =>
      match read16 s2 with
      | (none, r) => (none, r)
      | (some tokenLen, s3) =>
        match readFull tokenLen s3 with
        | (none, r) => (none, r)
        | (some token, s4) =>
          match read16 s4 with
          | (none, r) => (none, r)
          | (some payloadLen, s5) =>
            match readFull payloadLen s5 with
            | (none, r) => (none, r)
            | (some payload, s6) =>
              (some { Command := 1, Identifier := ident, Expiry := expiry,
                      TokenLength := tokenLen, DeviceToken := token,
                      PayloadLength := payloadLen, Payload := payload }, s6)

/-- `Notification.ReadFrom` for the framed format
(src/format/notification_enhanced.go lines 221-223) is a stub: it reads
nothing from the stream, returns a nil error, and leaves the receiver
unchanged. -/
def FramedNotification.ReadFrom (n : FramedNotification) (s : List Nat) :
    Option FramedNotification × List Nat :=
  (some n, s)

/-- `ErrorResponse.ReadFrom` (src/unnamed/part_004 lines 50-62): reads
the one-byte status and the 32-bit identifier; the tag byte has already
been consumed by the dispatcher, which allocates the receiver with `new`
(so `Command` stays 0). -/
def ErrorResponse.ReadFrom (s : List Nat) : Option ErrorResponse × List Nat :=
  match read8 s with
  | (none, r) => (none, r)
  | (some status, s1) =>
    match read32 s1 with
    | (none, r) => (none, r)
    | (some ident, s2) =>
      (some { Command := 0, Status := status, Identifier := ident }, s2)

/-- Errors the dispatcher can report: end of stream before the tag byte,
a delegate decoder failure, or the `UnknwonCommandErr` default case. -/
inductive ApnsErr where
  | endOfStream
  | badPacket
  | unknownCommand
deriving DecidableEq

/-- The packets `ReadCommand` can return (src/unnamed/part_002 lines
57-70): the dispatcher has cases only for tags 0, 1 and 8. -/
inductive Packet where
  | simpleP (sn : SimpleNotification)
  | enhancedP (en : EnhancedNotification)
  | errorP (er : ErrorResponse)
deriving DecidableEq

/-- `ReadCommand` (src/apns.go lines 63-95, src/unnamed/part_002 lines
43-79): reads one tag byte, then dispatches on it — 0 to the Simple
decoder, 1 to the Enhanced decoder, 8 to the ErrorResponse decoder, and
everything else (including the framed tag 2, which has no case) to the
`UnknwonCommandErr` default.  The second component is the stream as left
behind by whatever was consumed. -/
def ReadCommand (s : List Nat) : Except ApnsErr Packet × List Nat :=
  match s with
  | [] => (.error .endOfStream, [])
  | c :: rest =>
    if c = 0 then
      match SimpleNotification.ReadFrom rest with
      | (some sn, r) => (.ok (.simpleP sn), r)
      | (none, r) => (.error .badPacket, r)
    else if c = 1 then
      match EnhancedNotification.ReadFrom rest with
      | (some en, r) => (.ok (.enhancedP en), r)
      | (none, r) => (.error .badPacket, r)
    else if c = 8 then
      match ErrorResponse.ReadFrom rest with
      | (some er, r) => (.ok (.errorP er), r)
      | (none, r) => (.error .badPacket, r)
    else
      (.error .unknownCommand, rest)

/-- `SimpleNotification.Validate` (src/simple_notification.go lines
113-125): the four cases of the Go `switch`, in order.  The Go code
compares each `uint16` length field against `uint16(len(...))`, i.e.
against the actual length reduced modulo `2^16`. -/
inductive ValidationErr where
  | badCommand
  | tokenLenMismatch
  | payloadLenMismatch
  | payloadTooLarge
deriving DecidableEq

/-- `SimpleNotification.Validate` (src/simple_notification.go lines
113-125). -/
def SimpleNotification.Validate (sn : SimpleNotification) :
    Option ValidationErr :=
  if sn.Command ≠ 0 then some .badCommand
  else if sn.TokenLength ≠ sn.DeviceToken.length % 65536 then
    some .tokenLenMismatch
  else if sn.PayloadLength ≠ sn.Payload.length % 65536 then
    some .payloadLenMismatch
  else if MaxSimplePayloadSize < sn.PayloadLength then
    some .payloadTooLarge
  else none

/-- `EnhancedNotification.Validate` (src/enhanced_notification.go lines
74-86): identical structure with command 1. -/
def EnhancedNotification.Validate (en : EnhancedNotification) :
    Option ValidationErr :=
  if en.Command ≠ 1 then some .badCommand
  else if en.TokenLength ≠ en.DeviceToken.length % 65536 then
    some .tokenLenMismatch
  else if en.PayloadLength ≠ en.Payload.length % 65536 then
    some .payloadLenMismatch
  else if MaxSimplePayloadSize < en.PayloadLength then
    some .payloadTooLarge
  else none

/-- `Send` in its validating revision (src/unnamed/part_003 lines 26-31):
validate first and return the validation error without writing; only a
valid notification is written.  Instantiated at `SimpleNotification`. -/
def sendSimple (sn : SimpleNotification) : Except ValidationErr (List Nat) :=
  match sn.Validate with
  | some e => .error e
  | none => .ok sn.WriteTo

/-- `Send` in its later revision (src/unnamed/part_003 lines 67-72):
the `Validate` call is commented out, so every notification is written
unconditionally. -/
def sendSimpleNoValidate (sn : SimpleNotification) : Except ValidationErr (List Nat) :=
  .ok sn.WriteTo

/-- `Send` (validating revision) instantiated at `EnhancedNotification`. -/
def sendEnhanced (en : EnhancedNotification) : Except ValidationErr (List Nat) :=
  match en.Validate with
  | some e => .error e
  | none => .ok en.Write

/-- `Environment` (src/connection.go lines 41-49). -/
inductive Environment where
  | DISTRIBUTION
  | SANDBOX
deriving DecidableEq

/-- The array index an `Environment` value denotes (`iota`:
`DISTRIBUTION = 0`, `SANDBOX = 1`). -/
def Environment.idx : Environment → Nat
  | .DISTRIBUTION => 0
  | .SANDBOX => 1

/-- Fallback for out-of-range table lookups (unreachable for the two
environments). -/
def noHost : String := ""

/-- `pushHosts` (src/connection.go lines 22-25). -/
def pushHosts : List String :=
  ["gateway.push.apple.com:2195", "gateway.sandbox.push.apple.com:2195"]

/-- `feedbackHosts` (src/connection.go lines 27-30). -/
def feedbackHosts : List String :=
  ["feedback.push.apple.com:2196", "feedback.sandbox.push.apple.com:2196"]

/-- `pushHosts[env]`, the gateway address selected by `Connect` and
`DialAPNS`. -/
def pushHost (env : Environment) : String :=
  pushHosts.getD env.idx noHost

/-- `feedbackHosts[env]`, the address selected by `ConnectFeedback` and
`DialFeedback`. -/
def feedbackHost (env : Environment) : String :=
  feedbackHosts.getD env.idx noHost

set_option maxRecDepth 8000

/-! ## Concrete values used by the testable properties -/

/-- The UTF-8 bytes of the JSON payload used by the spec's framed
determinism property (31 bytes). -/
def helloPayload : List Nat :=
  [123, 34, 97, 112, 115, 34, 58, 123, 34, 97, 108, 101, 114, 116, 34, 58,
   34, 72, 101, 108, 108, 111, 32, 87, 111, 114, 108, 100, 34, 125, 125]

/-- The framed notification of the spec's determinism property: token
bytes `be ef ca 5e`, the Hello-World payload, identifier 42, expiry 0,
priority 10. -/
def exampleFramed : FramedNotification :=
  { Command := 2, Token := [190, 239, 202, 94], Identifier := 42,
    Expiry := 0, Priority := 10, Payload := helloPayload }

/-! ## Parser and printer agreement lemmas -/

lemma read16_be16 (n : Nat) (h : n < 65536) (rest : List Nat) :
    read16 (be16 n ++ rest) = (some n, rest) := by
  simp only [be16, read16, List.cons_append, List.nil_append, Prod.mk.injEq,
    Option.some.injEq, and_true]
  omega

lemma read32_be32 (n : Nat) (h : n < 4294967296) (rest : List Nat) :
    read32 (be32 n ++ rest) = (some n, rest) := by
  simp only [be32, read32, List.cons_append, List.nil_append, Prod.mk.injEq,
    Option.some.injEq, and_true]
  omega

lemma readChunk_exact (bs rest : List Nat) :
    readChunk bs.length (bs ++ rest) = (some bs, rest) := by
  cases bs with
  | nil => simp [readChunk]
  | cons h t =>
    have h1 : List.take (t.length + 1) (h :: (t ++ rest)) = h :: t := by
      rw [List.take_succ_cons, List.take_left]
    have h2 : List.drop (t.length + 1) (h :: (t ++ rest)) = rest := by
      rw [List.drop_succ_cons, List.drop_left]
    have h3 : t.length + 1 - (h :: (t ++ rest)).length = 0 := by
      simp [List.length_append]
    simp [readChunk, h1, h2, h3]

lemma readFull_exact (bs rest : List Nat) :
    readFull bs.length (bs ++ rest) = (some bs, rest) := by
  simp only [readFull, List.length_append]
  rw [if_pos (by omega)]
  rw [List.take_left' rfl, List.drop_left' rfl]

lemma simpleReadFrom_spec (tok pay : List Nat)
    (ht16 : tok.length < 65536) (hp16 : pay.length < 65536) :
    SimpleNotification.ReadFrom
        (be16 tok.length ++ (tok ++ (be16 pay.length ++ pay))) =
      (some ⟨0, tok.length, tok, pay.length, pay⟩, []) := by
  have hch := readChunk_exact pay []
  rw [List.append_nil] at hch
  simp [SimpleNotification.ReadFrom, read16_be16 _ ht16, read16_be16 _ hp16,
    readChunk_exact, hch]

lemma enhancedReadFrom_spec (ident expiry : Nat) (tok pay : List Nat)
    (hi : ident < 4294967296) (he : expiry < 4294967296)
    (ht16 : tok.length < 65536) (hp16 : pay.length < 65536) :
    EnhancedNotification.ReadFrom
        (be32 ident ++ (be32 expiry ++ (be16 tok.length ++ (tok ++
          (be16 pay.length ++ pay))))) =
      (some ⟨1, ident, expiry, tok.length, tok, pay.length, pay⟩, []) := by
  have hfl := readFull_exact pay []
  rw [List.append_nil] at hfl
  simp [EnhancedNotification.ReadFrom, read32_be32 _ hi, read32_be32 _ he,
    read16_be16 _ ht16, read16_be16 _ hp16, readFull_exact, hfl]

lemma validate_wrapPayload_aux (p : List Nat) (h : p.length = 65536) :
    SimpleNotification.Validate ⟨0, 0, [], 0, p⟩ = none := by
  simp [SimpleNotification.Validate, h]

lemma validate_wrapToken_aux (t : List Nat) (h : t.length = 65536) :
    SimpleNotification.Validate ⟨0, 0, t, 0, []⟩ = none := by
  simp [SimpleNotification.Validate, h]

lemma sendSimple_ok (sn : SimpleNotification) (h : sn.Validate = none) :
    sendSimple sn = .ok sn.WriteTo := by
  simp [sendSimple, h]

/-! ## Claim theorems -/

/-- C1 (amended): `decode(encode(n)) = n` holds for the Simple and
Enhanced variants across the stated token lengths 0, 1, 32, 65535 and
payload lengths 0, 1, 256, where decode is the variant's `ReadFrom` run
by the dispatcher after the tag byte; the Framed variant's `ReadFrom` is
a stub that consumes nothing and returns its receiver unchanged, so the
framed round trip fails. -/
theorem roundtrip_simple_enhanced :
    (∀ sn : SimpleNotification, sn.Command = 0 →
      sn.TokenLength = sn.DeviceToken.length →
      sn.PayloadLength = sn.Payload.length →
      sn.TokenLength ∈ ([0, 1, 32, 65535] : List Nat) →
      sn.PayloadLength ∈ ([0, 1, 256] : List Nat) →
      ReadCommand sn.WriteTo = (.ok (.simpleP sn), []))
    ∧ (∀ en : EnhancedNotification, en.Command = 1 →
      en.Identifier < 4294967296 → en.Expiry < 4294967296 →
      en.TokenLength = en.DeviceToken.length →
      en.PayloadLength = en.Payload.length →
      en.TokenLength ∈ ([0, 1, 32, 65535] : List Nat) →
      en.PayloadLength ∈ ([0, 1, 256] : List Nat) →
      ReadCommand en.Write = (.ok (.enhancedP en), []))
    ∧ (∀ (n : FramedNotification) (s : List Nat),
      FramedNotification.ReadFrom n s = (some n, s)) := by
  refine ⟨?_, ?_, fun n s => rfl⟩
  · rintro ⟨cmd, tl, tok, pl, pay⟩ hc ht hp htm hpm
    dsimp only at hc ht hp htm hpm
    subst hc ht hp
    simp only [List.mem_cons, List.not_mem_nil, or_false] at htm hpm
    have ht16 : tok.length < 65536 := by rcases htm with h | h | h | h <;> omega
    have hp16 : pay.length < 65536 := by rcases hpm with h | h | h <;> omega
    simp only [SimpleNotification.WriteTo, List.append_assoc, List.cons_append,
      List.nil_append, Nat.zero_mod]
    simp [ReadCommand, simpleReadFrom_spec tok pay ht16 hp16]
  · rintro ⟨cmd, ident, expiry, tl, tok, pl, pay⟩ hc hi he ht hp htm hpm
    dsimp only at hc hi he ht hp htm hpm
    subst hc ht hp
    simp only [List.mem_cons, List.not_mem_nil, or_false] at htm hpm
    have ht16 : tok.length < 65536 := by rcases htm with h | h | h | h <;> omega
    have hp16 : pay.length < 65536 := by rcases hpm with h | h | h <;> omega
    simp only [EnhancedNotification.Write, List.append_assoc, List.cons_append,
      List.nil_append]
    simp [ReadCommand, enhancedReadFrom_spec ident expiry tok pay hi he ht16 hp16]

/-- C1 witness: the round trip evaluated at a concrete Simple and a
concrete Enhanced notification. -/
theorem roundtrip_simple_enhanced_witness :
    ReadCommand (SimpleNotification.WriteTo ⟨0, 1, [7], 1, [9]⟩) =
      (.ok (.simpleP ⟨0, 1, [7], 1, [9]⟩), [])
    ∧ ReadCommand (EnhancedNotification.Write ⟨1, 42, 7, 1, [7], 1, [9]⟩) =
      (.ok (.enhancedP ⟨1, 42, 7, 1, [7], 1, [9]⟩), []) :=
  ⟨roundtrip_simple_enhanced.1 ⟨0, 1, [7], 1, [9]⟩ rfl rfl rfl (by decide)
      (by decide),
   roundtrip_simple_enhanced.2.1 ⟨1, 42, 7, 1, [7], 1, [9]⟩ rfl (by decide)
      (by decide) rfl rfl (by decide) (by decide)⟩

/-- C1 counterexample: decoding the encoding of the concrete framed
notification with the stub `ReadFrom` (the receiver is the fresh
zero value the dispatcher would allocate) yields that zero value, which
differs from the encoded notification. -/
theorem roundtrip_framed_counterexample :
    FramedNotification.ReadFrom ⟨0, [], 0, 0, 0, []⟩
        ((exampleFramed.WriteTo).drop 1) =
      (some ⟨0, [], 0, 0, 0, []⟩, (exampleFramed.WriteTo).drop 1)
    ∧ (⟨0, [], 0, 0, 0, []⟩ : FramedNotification) ≠ exampleFramed :=
  ⟨rfl, by decide⟩

/-- C2 (amended): a first byte of 0 or 1 delegates to the Simple or
Enhanced notification decoder and returns its result; a first byte of 8
delegates to the error-response decoder; a first byte of 2 is NOT
dispatched to the framed decoder — the dispatcher's switch has no case
for tag 2, so it falls into the `UnknwonCommandErr` default. -/
theorem dispatch_amended :
    (∀ s sn r, SimpleNotification.ReadFrom s = (some sn, r) →
      ReadCommand (0 :: s) = (.ok (.simpleP sn), r))
    ∧ (∀ s en r, EnhancedNotification.ReadFrom s = (some en, r) →
      ReadCommand (1 :: s) = (.ok (.enhancedP en), r))
    ∧ (∀ s er r, ErrorResponse.ReadFrom s = (some er, r) →
      ReadCommand (8 :: s) = (.ok (.errorP er), r))
    ∧ (∀ s, ReadCommand (2 :: s) = (.error .unknownCommand, s)) := by
  refine ⟨?_, ?_, ?_, ?_⟩
  · intro s sn r h
    simp [ReadCommand, h]
  · intro s en r h
    simp [ReadCommand, h]
  · intro s er r h
    simp [ReadCommand, h]
  · intro s
    simp [ReadCommand]

/-- C2 witness: dispatch evaluated for each handled tag on concrete
streams. -/
theorem dispatch_amended_witness :
    ReadCommand (0 :: [0, 0, 0, 0]) = (.ok (.simpleP ⟨0, 0, [], 0, []⟩), [])
    ∧ ReadCommand (1 :: [0, 0, 0, 5, 0, 0, 0, 0, 0, 0, 0, 0]) =
      (.ok (.enhancedP ⟨1, 5, 0, 0, [], 0, []⟩), [])
    ∧ ReadCommand (8 :: [2, 0, 0, 0, 9]) = (.ok (.errorP ⟨0, 2, 9⟩), []) :=
  ⟨dispatch_amended.1 [0, 0, 0, 0] ⟨0, 0, [], 0, []⟩ [] rfl,
   dispatch_amended.2.1 [0, 0, 0, 5, 0, 0, 0, 0, 0, 0, 0, 0]
      ⟨1, 5, 0, 0, [], 0, []⟩ [] rfl,
   dispatch_amended.2.2.1 [2, 0, 0, 0, 9] ⟨0, 2, 9⟩ [] rfl⟩

/-- C2 counterexample: the full framed encoding of the concrete
notification begins with byte 2, and the dispatcher rejects it with
`UnknwonCommandErr` instead of returning a decoded Notification. -/
theorem dispatch_tag2_counterexample :
    ReadCommand exampleFramed.WriteTo =
      (.error .unknownCommand, (exampleFramed.WriteTo).drop 1) := rfl

/-- C3: encoding the framed notification with token `be ef ca 5e`, the
Hello-World payload, identifier 42, expiry 0 and priority 10 yields the
tag byte, a big-endian `frameLength` of 59 — the sum over the five items
of `1 + 2 + len(itemData)` — and the items in the order token, payload,
identifier, expiry, priority, all integers big-endian. -/
theorem framed_encoding_deterministic :
    exampleFramed.WriteTo =
      [2] ++ be32 59
        ++ ([1, 0, 4] ++ [190, 239, 202, 94])
        ++ ([2, 0, 31] ++ helloPayload)
        ++ [3, 0, 4, 0, 0, 0, 42]
        ++ [4, 0, 4, 0, 0, 0, 0]
        ++ [5, 0, 1, 10]
    ∧ 59 = (1 + 2 + exampleFramed.Token.length)
        + (1 + 2 + exampleFramed.Payload.length)
        + (1 + 2 + 4) + (1 + 2 + 4) + (1 + 2 + 1) := by decide

/-- C4: the error-response decoder consumes exactly the five bytes after
the tag (one status byte, four big-endian identifier bytes), and the
packet `[8, 8, 0, 0, 0, 1]` decodes through the dispatcher to an
`ErrorResponse` with status `InvalidTokenStatus` (8) and identifier 1. -/
theorem errorResponse_decode :
    (∀ st b1 b2 b3 b4 rest,
      ErrorResponse.ReadFrom (st :: b1 :: b2 :: b3 :: b4 :: rest) =
        (some ⟨0, st, ((b1 * 256 + b2) * 256 + b3) * 256 + b4⟩, rest))
    ∧ ReadCommand [8, 8, 0, 0, 0, 1] =
      (.ok (.errorP ⟨0, InvalidTokenStatus, 1⟩), []) :=
  ⟨fun _ _ _ _ _ _ => rfl, rfl⟩

/-- C5 (amended): the encode methods themselves never fail — `WriteTo` /
`Write` discard all write errors and emit the notification
unconditionally, including a 257-byte payload.  Rejection happens only in
`Validate` as used by the validating `Send` revision: a notification
whose matching payload-length field is 257 is rejected there with the
payload-too-large validation error.  Byte lengths that cannot be
represented in the 16-bit field are compared modulo `2^16`, so they are
not detected; the later `Send` revision skips validation entirely. -/
theorem send_validation_amended :
    (∀ (sn : SimpleNotification) (w : GoWriter), (sn.WriteToW w).2 = none)
    ∧ (∀ (en : EnhancedNotification) (w : GoWriter), (en.WriteW w).2 = none)
    ∧ (∀ sn : SimpleNotification, sn.Command = 0 →
        sn.TokenLength = sn.DeviceToken.length →
        sn.DeviceToken.length < 65536 →
        sn.PayloadLength = 257 → sn.Payload.length = 257 →
        sendSimple sn = .error .payloadTooLarge)
    ∧ (∀ en : EnhancedNotification, en.Command = 1 →
        en.TokenLength = en.DeviceToken.length →
        en.DeviceToken.length < 65536 →
        en.PayloadLength = 257 → en.Payload.length = 257 →
        sendEnhanced en = .error .payloadTooLarge)
    ∧ (∀ sn : SimpleNotification, sendSimpleNoValidate sn = .ok sn.WriteTo) := by
  refine ⟨fun _ _ => rfl, fun _ _ => rfl, ?_, ?_, fun _ => rfl⟩
  · intro sn hc ht hlt hp hplen
    have h1 : sn.DeviceToken.length % 65536 = sn.DeviceToken.length :=
      Nat.mod_eq_of_lt hlt
    simp [sendSimple, SimpleNotification.Validate, MaxSimplePayloadSize,
      hc, ht, hp, hplen, h1]
  · intro en hc ht hlt hp hplen
    have h1 : en.DeviceToken.length % 65536 = en.DeviceToken.length :=
      Nat.mod_eq_of_lt hlt
    simp [sendEnhanced, EnhancedNotification.Validate, MaxSimplePayloadSize,
      hc, ht, hp, hplen, h1]

/-- C5 witness: the validating `Send` evaluated at concrete Simple and
Enhanced notifications carrying a 257-byte payload. -/
theorem send_validation_amended_witness :
    sendSimple ⟨0, 1, [0], 257, List.replicate 257 65⟩ =
      .error .payloadTooLarge
    ∧ sendEnhanced ⟨1, 3, 4, 1, [0], 257, List.replicate 257 65⟩ =
      .error .payloadTooLarge :=
  ⟨send_validation_amended.2.2.1 ⟨0, 1, [0], 257, List.replicate 257 65⟩
      rfl rfl (by decide) rfl (by simp),
   send_validation_amended.2.2.2.1 ⟨1, 3, 4, 1, [0], 257, List.replicate 257 65⟩
      rfl rfl (by decide) rfl (by simp)⟩

/-- C5 counterexample: `WriteTo` on a Simple notification with a matching
257-byte payload returns a nil error and writes the full encoding (so
the encode operation neither fails nor withholds the notification), and
the validating `Send` accepts a notification whose 65536-byte token
cannot be represented in the 16-bit length field (the comparison wraps
to 0). -/
theorem encode_never_fails_counterexample :
    (SimpleNotification.WriteToW ⟨0, 1, [0], 257, List.replicate 257 65⟩
        ⟨[], none⟩).2 = none
    ∧ (SimpleNotification.WriteToW ⟨0, 1, [0], 257, List.replicate 257 65⟩
        ⟨[], none⟩).1.written =
      SimpleNotification.WriteTo ⟨0, 1, [0], 257, List.replicate 257 65⟩
    ∧ SimpleNotification.WriteTo ⟨0, 1, [0], 257, List.replicate 257 65⟩ ≠ []
    ∧ sendSimple ⟨0, 0, List.replicate 65536 1, 0, []⟩ =
      .ok (SimpleNotification.WriteTo ⟨0, 0, List.replicate 65536 1, 0, []⟩) := by
  refine ⟨rfl, ?_, ?_, ?_⟩
  · simp [SimpleNotification.WriteToW, SimpleNotification.WriteTo,
      GoWriter.write]
  · simp [SimpleNotification.WriteTo]
  · exact sendSimple_ok _ (validate_wrapToken_aux (List.replicate 65536 1)
      (by rw [List.length_replicate]))

/-- C6 (code bug): a Simple decode whose declared payload length exceeds
the bytes remaining on the stream succeeds with a zero-padded partial
payload instead of failing — the post-tag stream
`[0, 0, 0, 5, 1, 2, 3]` (token length 0, declared payload length 5, only
3 bytes available) decodes to a notification with payload
`[1, 2, 3, 0, 0]`. -/
theorem simple_decode_truncated_payload :
    ReadCommand [0, 0, 0, 0, 5, 1, 2, 3] =
      (.ok (.simpleP ⟨0, 0, [], 5, [1, 2, 3, 0, 0]⟩), []) := rfl

/-- Notification used by the C7 counterexample: the declared
payload-length field is 0 while the payload holds 65536 bytes, whose
length the Go `uint16` conversion wraps to 0. -/
def wrapNotification : SimpleNotification :=
  ⟨0, 0, [], 0, List.replicate 65536 0⟩

/-- C7 (amended): `Validate` succeeds exactly when the command ID is 0,
both length fields equal the actual token and payload byte lengths
reduced modulo `2^16`, and the payload-length field is at most 256; a
mismatch that vanishes modulo `2^16` is not detected. -/
theorem validate_characterization (sn : SimpleNotification) :
    sn.Validate = none ↔
      (sn.Command = 0 ∧ sn.TokenLength = sn.DeviceToken.length % 65536 ∧
       sn.PayloadLength = sn.Payload.length % 65536 ∧
       sn.PayloadLength ≤ MaxSimplePayloadSize) := by
  simp only [SimpleNotification.Validate]
  split_ifs with h1 h2 h3 h4 <;> simp_all

/-- C7 counterexample: a Simple notification whose declared payload
length (0) differs from the actual payload byte count (65536) is
accepted by `Validate`, because the comparison wraps modulo `2^16`. -/
theorem validate_wrap_counterexample :
    wrapNotification.Validate = none
    ∧ wrapNotification.PayloadLength ≠ wrapNotification.Payload.length := by
  constructor
  · exact validate_wrapPayload_aux _ (by rw [List.length_replicate])
  · show (0 : Nat) ≠ (List.replicate 65536 (0 : Nat)).length
    rw [List.length_replicate]
    decide

/-- C8: any leading byte outside the handled tag set — in particular any
byte other than 0, 1, 2 and 8 — makes `ReadCommand` fail with the
`UnknwonCommandErr` default, leaving the rest of the stream untouched. -/
theorem unknown_command_rejected (c : Nat) (s : List Nat)
    (h0 : c ≠ 0) (h1 : c ≠ 1) (_h2 : c ≠ 2) (h8 : c ≠ 8) :
    ReadCommand (c :: s) = (.error .unknownCommand, s) := by
  simp [ReadCommand, h0, h1, h8]

/-- C8 witness: a leading byte of 99 is rejected and the two following
bytes are left on the stream. -/
theorem unknown_command_rejected_witness :
    ReadCommand (99 :: [5, 6]) = (.error .unknownCommand, [5, 6]) :=
  unknown_command_rejected 99 [5, 6] (by decide) (by decide) (by decide)
    (by decide)

/-- C9: the push-gateway table maps DISTRIBUTION (production) to
`gateway.push.apple.com:2195` and SANDBOX to
`gateway.sandbox.push.apple.com:2195`; the feedback table maps them to
`feedback.push.apple.com:2196` and `feedback.sandbox.push.apple.com:2196`. -/
theorem environment_hosts :
    pushHost .SANDBOX = "gateway.sandbox.push.apple.com:2195"
    ∧ pushHost .DISTRIBUTION = "gateway.push.apple.com:2195"
    ∧ feedbackHost .DISTRIBUTION = "feedback.push.apple.com:2196"
    ∧ feedbackHost .SANDBOX = "feedback.sandbox.push.apple.com:2196" :=
  ⟨rfl, rfl, rfl, rfl⟩

/-- C10: for every Simple or Enhanced notification and every underlying
writer — including writers that fail part-way — the encode method
returns a nil error: the per-field `binary.Write` results are bound and
discarded, never propagated. -/
theorem writeTo_discards_errors :
    (∀ (sn : SimpleNotification) (w : GoWriter), (sn.WriteToW w).2 = none)
    ∧ (∀ (en : EnhancedNotification) (w : GoWriter), (en.WriteW w).2 = none) :=
  ⟨fun _ _ => rfl, fun _ _ => rfl⟩

/-- C7 witness: the characterization evaluated at a concrete
notification whose fields all match. -/
theorem validate_characterization_witness :
    SimpleNotification.Validate ⟨0, 1, [7], 1, [9]⟩ = none :=
  (validate_characterization ⟨0, 1, [7], 1, [9]⟩).mpr
    ⟨rfl, by decide, by decide, by decide⟩
